import Mathlib

/-!
Shallow embedding of the FreeBee (AT&T 3B1 emulator) core:
the memory-management / bus subsystem (`src/memory.c`) and the WD2797
floppy-disc-controller model (`src/wd279x.c`).

Byte stores (RAM banks, map RAM, the FDC track buffer, disc images) are
modelled as total functions `ℕ → ℕ` whose values are kept below 256 by
masking at every point where the C code stores or reads a `uint8_t`.
Machine integers are modelled as `ℕ` (with explicit truncation where the
C types force it) except where the C uses signed `int` arithmetic
(the FDC head position), which is modelled as `ℤ`.
-/

namespace Freebee

/-- Pointwise update of a byte-store function (a C array store). -/
def upd (f : ℕ → ℕ) (i v : ℕ) : ℕ → ℕ := fun j => if j = i then v else f j

/-- Copy `n` bytes from `src` (starting at `srcOff`) into `dst` (starting at
`dstOff`), truncating each byte to 8 bits as a `uint8_t` store does. -/
def copyBytes (src : ℕ → ℕ) (srcOff : ℕ) (dst : ℕ → ℕ) (dstOff : ℕ) : ℕ → (ℕ → ℕ)
  | 0 => dst
  | n + 1 => copyBytes src srcOff (upd dst (dstOff + n) (src (srcOff + n) % 256)) dstOff n

/-! ## WD2797 floppy disc controller (`src/wd279x.c`) -/

/-- A loaded disc image.  `wd279x.c` keeps a `FILE *`; the file is modelled
as a flat byte store together with its size (`fseek`/`ftell`/`fread`/`fwrite`
become reads and writes of this structure). -/
structure DiskImage where
  bytes : ℕ → ℕ
  size : ℕ

/-- The WD2797 context (`WD2797_CTX`).  The header `wd279x.h` is not part of
the sources; the field set and widths follow the spec §3 ("FDC Instance") and
the uses in `wd279x.c`/`memory.c`: `track`, `track_reg` and `last_step_dir`
are C `int`s (modelled as `ℤ`; `track` is range-checked against 0), `write_pos`
is signed with sentinel `-1`, `data_pos`/`data_len` are `size_t` (`ℕ`), and
`data_cap` records the size of the `malloc`-ed track buffer (implicit in the
C heap), `sector_size * sectors_per_track` at load time.  `irql` is the IRQ
line latch read by `memory.c`'s LPRSTAT handler; nothing in `wd279x.c`
writes it. -/
structure WD2797 where
  disc_image : Option DiskImage
  geom_secsz : ℕ
  geom_spt : ℕ
  geom_heads : ℕ
  geom_tracks : ℕ
  track : ℤ
  head : ℕ
  sector : ℕ
  track_reg : ℤ
  data_reg : ℕ
  last_step_dir : ℤ
  data : ℕ → ℕ
  data_cap : ℕ
  data_pos : ℕ
  data_len : ℕ
  writeable : Bool
  irq : Bool
  irql : Bool
  status : ℕ
  cmd_has_drq : Bool
  formatting : Bool
  write_pos : ℤ

/-- Embeds `wd2797_init`. -/
def wd2797_init (s : WD2797) : WD2797 :=
  { s with track := 0, head := 0, sector := 0, track_reg := 0,
           irq := false,
           data_pos := 0, data_len := 0, data := fun _ => 0, data_cap := 0,
           status := 0, cmd_has_drq := false,
           formatting := false,
           data_reg := 0,
           last_step_dir := -1,
           disc_image := none,
           geom_secsz := 0, geom_spt := 0, geom_heads := 0, geom_tracks := 0 }

/-- Embeds `wd2797_reset`. -/
def wd2797_reset (s : WD2797) : WD2797 :=
  { s with track := 0, head := 0, sector := 0, track_reg := 0,
           irq := false,
           data_pos := 0, data_len := 0,
           status := 0,
           data_reg := 0,
           last_step_dir := -1 }

inductive WD2797_ERR where
  | OK
  | BAD_GEOM
  | NO_MEMORY
deriving DecidableEq

/-- Embeds `wd2797_load`.  The track count is `filesize / secsz / spt / heads`
(successive integer divisions).  On success a fresh track buffer of
`secsz * spt` bytes is allocated (its contents are unspecified in C;
modelled as zero) and the geometry is attached.  Note that `data_pos` and
`data_len` are NOT reset by a load. -/
def wd2797_load (s : WD2797) (img : DiskImage) (secsz spt heads : ℕ)
    (writeable : Bool) : WD2797_ERR × WD2797 :=
  let tracks := img.size / secsz / spt / heads
  if tracks < 1 then (.BAD_GEOM, s)
  else (.OK, { s with data := fun _ => 0, data_cap := secsz * spt,
                      disc_image := some img,
                      geom_tracks := tracks, geom_secsz := secsz,
                      geom_heads := heads, geom_spt := spt,
                      writeable := writeable })

/-- Embeds `wd2797_unload`. -/
def wd2797_unload (s : WD2797) : WD2797 :=
  { s with data := fun _ => 0, data_cap := 0,
           disc_image := none,
           geom_tracks := 0, geom_secsz := 0, geom_spt := 0, geom_heads := 0 }

/-- Embeds `wd2797_get_drq`. -/
def wd2797_get_drq (s : WD2797) : Bool := s.data_pos < s.data_len

/-- Embeds `wd2797_get_irq`. -/
def wd2797_get_irq (s : WD2797) : Bool := s.irq

/-- Embeds `wd2797_read_reg`: it returns the register value and the updated context.
The C function also calls `m68k_end_timeslice()`, which only affects the
host CPU loop and is not part of the controller state. -/
def wd2797_read_reg (s : WD2797) (addr : ℕ) : ℕ × WD2797 :=
  if addr &&& 0x03 = 0 then
    -- Status register: the read clears IRQ
    ((if s.cmd_has_drq then
        (s.status &&& 0xFC) ||| (if s.data_pos < s.data_len then 0x02 else 0)
      else
        s.status &&& 0xFE) |||
       (if s.data_pos < s.data_len then 0x81 else 0),
     { s with irq := false })
  else if addr &&& 0x03 = 1 then
    -- Track register (returned as uint8_t)
    ((s.track_reg % 256).toNat, s)
  else if addr &&& 0x03 = 2 then
    -- Sector register
    (s.sector % 256, s)
  else
    -- Data register
    if s.data_pos < s.data_len then
      (s.data s.data_pos % 256,
       { s with irq := if s.data_pos = s.data_len - 1 then true else s.irq,
                data_pos := s.data_pos + 1 })
    else
      (s.data_reg % 256, s)

/-- The READ SECTOR[_MULTI] loop: for each `i < n`, `fseek` to byte offset
`(base0 + i) * secsz` and `fread` up to `secsz` bytes from the image,
appending them to the buffer at `len` (the C appends whatever `fread`
returns, which is `min secsz (size - off)` for an in-bounds seek). -/
def wd_read_sectors (img : DiskImage) (secsz base0 : ℕ) :
    ℕ → ℕ → (ℕ → ℕ) → ℕ → (ℕ → ℕ) × ℕ
  | _, 0, data, len => (data, len)
  | i, n + 1, data, len =>
    let off := (base0 + i) * secsz
    let cnt := min secsz (img.size - off)
    wd_read_sectors img secsz base0 (i + 1) n
      (copyBytes img.bytes off data len cnt) (len + cnt)

/-- An `fwrite` of `n` buffer bytes at image offset `off` (plus the implicit
file extension `fwrite` performs when writing past the end). -/
def imageWrite (img : DiskImage) (off : ℕ) (src : ℕ → ℕ) (n : ℕ) : DiskImage :=
  { bytes := copyBytes src 0 img.bytes off n, size := max img.size (off + n) }

/-- The "Handle Type 1 commands" switch at the top of the command case of
`wd2797_write_reg`: returns the `is_type1` flag and the context as updated
by the RESTORE/SEEK/STEP cases (the non-type-1 commands leave it alone). -/
def wd2797_type1 (s : WD2797) (cmd : ℕ) : Bool × WD2797 :=
  if cmd = 0x00 then
    -- RESTORE
    (true, { s with track := 0, track_reg := 0 })
  else if cmd = 0x10 then
    -- SEEK (falls through into the STEP case, which adds nothing)
    (true,
      if (s.data_reg : ℤ) < (s.geom_tracks : ℤ) then
        { s with track := (s.data_reg : ℤ), track_reg := (s.data_reg : ℤ) }
      else
        { s with status := 0x10 })
  else if cmd = 0x20 then
    -- STEP
    (true, s)
  else if cmd = 0x30 ∨ cmd = 0x40 ∨ cmd = 0x50 ∨ cmd = 0x60 ∨ cmd = 0x70 then
    -- STEP_TU / STEPIN[_TU] / STEPOUT[_TU]
    let dir : ℤ :=
      if cmd &&& 0xEF = 0x40 then 1
      else if cmd &&& 0xEF = 0x60 then -1
      else s.last_step_dir
    let tr1 : ℤ := s.track + dir
    let tr2 : ℤ := if tr1 < 0 then 0 else tr1
    let stTr : ℕ × ℤ :=
      if tr2 ≥ (s.geom_tracks : ℤ) then (0x10, (s.geom_tracks : ℤ) - 1)
      else (s.status, tr2)
    let trg : ℤ := if cmd &&& 0x10 ≠ 0 then stTr.2 else s.track_reg
    (true, { s with last_step_dir := dir, track := stTr.2,
                    status := stTr.1, track_reg := trg })
  else (false, s)

/-- The command-register case of `wd2797_write_reg` (a write to register 0).
`val` is the full command byte; `cmd = val & 0xF0`. -/
def wd2797_command (s0 : WD2797) (val : ℕ) : WD2797 :=
  let cmd := val &&& 0xF0
  -- write to command register clears interrupt request
  let s := { s0 with irq := false }
  match s.disc_image with
  | none =>
    -- No disc image, thus the drive is busy.
    { s with status := 0x80, irq := true }
  | some img =>
    -- Handle Type 1 commands
    let t1 := wd2797_type1 s cmd
    if t1.1 then
      -- Type 1 epilogue: terminate transfers, build the Type-1 status byte
      -- (note: this overwrites any seek-error bit set above), raise IRQ.
      let s1 := t1.2
      { s1 with data_len := 0, data_pos := 0,
                cmd_has_drq := false,
                status := 0x20 ||| (if s1.track = 0 then 0x04 else 0),
                irq := true }
    else
      -- All these commands return the DRQ bit.
      let s2 := { s with cmd_has_drq := true }
      -- (the source re-checks `disc_image == NULL` here; it is non-null)
      -- Write-protect check for the write-class commands
      if ¬ s2.writeable ∧ (cmd = 0xA0 ∨ cmd = 0xB0 ∨ cmd = 0xF0) then
        { s2 with status := 0x40, irq := true }
      else if cmd = 0xC0 then
        -- READ ADDRESS: load the 6-byte ID record
        let hd : ℕ := if val &&& 0x02 ≠ 0 then 1 else 0
        let szc : ℕ :=
          if s2.geom_secsz = 128 then 0
          else if s2.geom_secsz = 256 then 1
          else if s2.geom_secsz = 512 then 2
          else if s2.geom_secsz = 1024 then 3
          else 0xFF
        let data' :=
          upd (upd (upd (upd (upd (upd s2.data
            0 (s2.track % 256).toNat) 1 hd) 2 (s2.sector % 256)) 3 szc) 4 0) 5 0
        { s2 with head := hd, data := data', data_pos := 0, data_len := 6,
                  status := 0 ||| (if (0 : ℕ) < 6 then 0x02 else 0) }
      else if cmd = 0x80 ∨ cmd = 0x90 then
        -- READ SECTOR [MULTI]
        let hd : ℕ := if val &&& 0x02 ≠ 0 then 1 else 0
        let s3 := { s2 with head := hd }
        if s3.track > (s3.geom_tracks : ℤ) - 1 ∨ (hd : ℤ) > (s3.geom_heads : ℤ) - 1
            ∨ s3.sector > s3.geom_spt ∨ s3.sector = 0 then
          -- CHS parameters exceed limits: Record Not Found
          { s3 with status := 0x10, irq := true }
        else
          let n := if cmd = 0x90 then s3.geom_spt else 1
          -- LBA of the first sector (track ≥ 0 and sector ≥ 1 in this branch)
          let base0 := s3.track.toNat * s3.geom_heads * s3.geom_spt
                        + hd * s3.geom_spt + s3.sector - 1
          let dl := wd_read_sectors img s3.geom_secsz base0 0 n s3.data 0
          { s3 with data := dl.1, data_pos := 0, data_len := dl.2,
                    status := 0 ||| (if 0 < dl.2 then 0x02 else 0) }
      else if cmd = 0xE0 then
        -- READ TRACK: unsupported
        { s2 with irq := true, status := 0x10 }
      else if cmd = 0xA0 ∨ cmd = 0xB0 then
        -- WRITE SECTOR [MULTI]
        let hd : ℕ := if val &&& 0x02 ≠ 0 then 1 else 0
        let n := if cmd = 0xB0 then s2.geom_spt else 1
        let lba : ℤ := s2.track * (s2.geom_heads : ℤ) * (s2.geom_spt : ℤ)
                        + (hd : ℤ) * (s2.geom_spt : ℤ) + (s2.sector : ℤ) - 1
        { s2 with head := hd, data_pos := 0, data_len := n * s2.geom_secsz,
                  write_pos := lba * (s2.geom_secsz : ℤ),
                  status := 0 ||| (if 0 < n * s2.geom_secsz then 0x02 else 0) }
      else if cmd = 0xF0 then
        -- FORMAT TRACK (write track): data is consumed and discarded
        let hd : ℕ := if val &&& 0x02 ≠ 0 then 1 else 0
        { s2 with head := hd, data_pos := 0, data_len := 7170,
                  status := 0 ||| (if (0 : ℕ) < 7170 then 0x02 else 0),
                  formatting := true }
      else if cmd = 0xD0 then
        -- FORCE INTERRUPT
        let st1 : ℕ := 0x20
        let st2 : ℕ := if ¬ s2.writeable then st1 ||| 0x40 else st1
        -- note: plain assignment in the source, not an OR
        let st3 : ℕ := if s2.track = 0 then 0x04 else st2
        { s2 with status := st3, data_pos := 0, data_len := 0,
                  irq := if cmd &&& 0x08 ≠ 0 then true else s2.irq }
      else s2

/-- The data-register case of `wd2797_write_reg` (a write to register 3). -/
def wd2797_write_data (s0 : WD2797) (val : ℕ) : WD2797 :=
  -- Save the value written into the data register
  let s := { s0 with data_reg := val }
  -- If we're processing a write command and there's space in the buffer:
  if s.data_pos < s.data_len ∧ (s.write_pos ≥ 0 ∨ s.formatting) then
    let data' := if ¬ s.formatting then upd s.data s.data_pos val else s.data
    let pos' := s.data_pos + 1
    if pos' = s.data_len then
      -- last data byte: flush to the image (unless formatting), raise IRQ
      let img' :=
        if ¬ s.formatting then
          match s.disc_image with
          | some img => some (imageWrite img s.write_pos.toNat data' s.data_len)
          | none => none
        else s.disc_image
      { s with data := data', data_pos := pos', disc_image := img',
               irq := true, write_pos := -1, formatting := false }
    else
      { s with data := data', data_pos := pos' }
  else s

/-- Embeds `wd2797_write_reg`.  Both parameters are `uint8_t` in C, hence the
truncations; the dispatch is `switch (addr)` with cases 0..3. -/
def wd2797_write_reg (s : WD2797) (addr val : ℕ) : WD2797 :=
  let addr := addr % 256
  let val := val % 256
  if addr = 0 then wd2797_command s val
  else if addr = 1 then { s with track := (val : ℤ), track_reg := (val : ℤ) }
  else if addr = 2 then { s with sector := val }
  else if addr = 3 then wd2797_write_data s val
  else s

/-- Embeds `wd2797_dma_miss`. -/
def wd2797_dma_miss (s : WD2797) : WD2797 :=
  { s with data_pos := s.data_len, write_pos := 0, status := 4, irq := true }

/-! ### FDC event traces (for the reachability invariant) -/

/-- One host-visible FDC operation. -/
inductive FDCOp where
  | rdReg (addr : ℕ)
  | wrReg (addr val : ℕ)
  | reset
  | dmaMiss
  | load (img : DiskImage) (secsz spt heads : ℕ) (w : Bool)
  | unload

/-- The state transition of a single FDC operation. -/
def fdcStep (s : WD2797) : FDCOp → WD2797
  | .rdReg a => (wd2797_read_reg s a).2
  | .wrReg a v => wd2797_write_reg s a v
  | .reset => wd2797_reset s
  | .dmaMiss => wd2797_dma_miss s
  | .load img a b c w => (wd2797_load s img a b c w).2
  | .unload => wd2797_unload s

/-- Run a trace of FDC operations. -/
def fdcRun (s : WD2797) (ops : List FDCOp) : WD2797 := ops.foldl fdcStep s

/-- A concrete just-initialised controller (all the `wd2797_init` values,
and `writeable`/`write_pos`/`irql`, which `wd2797_init` does not touch,
picked concretely). -/
def fdc0 : WD2797 :=
  { disc_image := none,
    geom_secsz := 0, geom_spt := 0, geom_heads := 0, geom_tracks := 0,
    track := 0, head := 0, sector := 0, track_reg := 0,
    data_reg := 0, last_step_dir := -1,
    data := fun _ => 0, data_cap := 0, data_pos := 0, data_len := 0,
    writeable := false, irq := false, irql := false, status := 0,
    cmd_has_drq := false, formatting := false, write_pos := -1 }

/-! ## Memory management and bus (`src/memory.c`) -/

/-- The process-wide machine state (`struct state`).  `state.h` is not part
of the sources; the field set and widths are modelled from the spec §3:
`genstat`/`bsr0`/`bsr1` are 16-bit, the byte buffers are flat `uint8_t`
arrays with a size.  `sr` is the CPU status register as returned by
`m68k_get_reg(NULL, M68K_REG_SR)`, and `bus_error` latches a call to
`m68k_pulse_bus_error()` (both hooks live in the external CPU core). -/
structure MachineState where
  sr : ℕ
  rom : ℕ → ℕ
  base_ram : ℕ → ℕ
  base_ram_size : ℕ
  exp_ram : ℕ → ℕ
  exp_ram_size : ℕ
  map : ℕ → ℕ
  vram : ℕ → ℕ
  genstat : ℕ
  bsr0 : ℕ
  bsr1 : ℕ
  pie : Bool
  romlmap : Bool
  dma_count : ℕ
  idmarw : Bool
  dmaen : Bool
  dma_reading : Bool
  dma_address : ℕ
  leds : ℕ
  fdc_ctx : WD2797
  bus_error : Bool

/-- Modelled from the spec: `memory.h` (the `RD*`/`WR*` macros and
`ROM_SIZE`) is not in the sources.  Spec §4.3: natural-width accesses are
big-endian with each byte offset masked by `size - 1`; §6: the ROM region
size is up to 256 KiB. -/
def ROM_SIZE : ℕ := 0x40000

/-- Modelled from the spec: 8-bit read from a size-masked byte store. -/
def RD8 (buf : ℕ → ℕ) (addr mask : ℕ) : ℕ := buf (addr &&& mask) % 256

/-- Modelled from the spec: 8-bit write to a size-masked byte store. -/
def WR8 (buf : ℕ → ℕ) (addr mask v : ℕ) : ℕ → ℕ :=
  upd buf (addr &&& mask) (v % 256)

/-- Modelled from the spec: big-endian 16-bit read, each byte masked. -/
def RD16 (buf : ℕ → ℕ) (addr mask : ℕ) : ℕ :=
  ((buf (addr &&& mask) % 256) <<< 8) ||| (buf ((addr + 1) &&& mask) % 256)

/-- Modelled from the spec: big-endian 16-bit write, each byte masked. -/
def WR16 (buf : ℕ → ℕ) (addr mask v : ℕ) : ℕ → ℕ :=
  upd (upd buf (addr &&& mask) ((v >>> 8) &&& 0xFF)) ((addr + 1) &&& mask) (v &&& 0xFF)

/-- Modelled from the spec: big-endian 32-bit read (high 16 | low 16). -/
def RD32 (buf : ℕ → ℕ) (addr mask : ℕ) : ℕ :=
  (RD16 buf addr mask <<< 16) ||| RD16 buf (addr + 2) mask

/-- Modelled from the spec: big-endian 32-bit write (high 16 then low 16). -/
def WR32 (buf : ℕ → ℕ) (addr mask v : ℕ) : ℕ → ℕ :=
  WR16 (WR16 buf addr mask ((v >>> 16) &&& 0xFFFF)) (addr + 2) mask (v &&& 0xFFFF)

/-- The `MAPRAM(addr)` macro: the big-endian 16-bit map entry of a page. -/
def MAPRAM (map : ℕ → ℕ) (page : ℕ) : ℕ :=
  ((map (page * 2) % 256) <<< 8) + (map (page * 2 + 1) % 256)

/-- Embeds `mapAddr`: translate a CPU address through the map RAM, updating the
page-status bits in place.  Returns the physical address and the updated
map RAM. -/
def mapAddr (map : ℕ → ℕ) (addr : ℕ) (writing : Bool) : ℕ × (ℕ → ℕ) :=
  if addr < 0x400000 then
    let page := (addr >>> 12) &&& 0x3FF
    let new_page_addr := MAPRAM map page &&& 0x3FF
    let pagebits := (MAPRAM map page >>> 13) &&& 0x03
    let map' :=
      if pagebits ≠ 0 then
        if writing then
          upd map (page * 2) ((map (page * 2) % 256) ||| 0x60)
        else
          upd map (page * 2) ((map (page * 2) % 256) ||| 0x40)
      else map
    ((new_page_addr <<< 12) + (addr &&& 0xFFF), map')
  else
    -- I/O, VRAM or MapRAM space; no mapping is performed or required
    (addr, map)

/-- The five access verdicts (`MEM_STATUS`). -/
inductive MEM_STATUS where
  | MEM_ALLOWED
  | MEM_PAGEFAULT
  | MEM_UIE
  | MEM_KERNEL
  | MEM_PAGE_NO_WE
deriving DecidableEq

open MEM_STATUS

/-- Embeds `checkMemoryAccess`. -/
def checkMemoryAccess (sr : ℕ) (map : ℕ → ℕ) (addr : ℕ) (writing : Bool) :
    MEM_STATUS :=
  -- Are we in Supervisor mode?
  if sr &&& 0x2000 ≠ 0 then MEM_ALLOWED
  -- User access outside the RAM area?
  else if addr ≥ 0x400000 then MEM_UIE
  else
    let page := (addr >>> 12) &&& 0x3FF
    let pagebits := (MAPRAM map page >>> 13) &&& 0x07
    -- Check page is present
    if pagebits &&& 0x03 = 0 then MEM_PAGEFAULT
    -- User attempt to access the kernel (A19..A22 low)
    else if (addr >>> 19) &&& 0x0F = 0 then MEM_KERNEL
    -- Check page is write enabled
    else if writing ∧ pagebits &&& 0x04 = 0 then MEM_PAGE_NO_WE
    else MEM_ALLOWED

/-- The `ACCESS_CHECK_RD(address, bits)` macro: returns whether the access
faulted, and the state with the fault registers populated and the bus-error
pulse latched when it did. -/
def accessCheckRD (s : MachineState) (address bits : ℕ) : Bool × MachineState :=
  let fs : Bool × MachineState :=
    match checkMemoryAccess s.sr s.map address false with
    | MEM_ALLOWED => (false, s)
    | MEM_PAGEFAULT =>
        (true, { s with genstat := 0xCBFF ||| (if s.pie then 0x0400 else 0) })
    | MEM_UIE =>
        (true, { s with genstat := 0xDAFF ||| (if s.pie then 0x0400 else 0) })
    | MEM_KERNEL => (true, s)       -- FIXME in source: registers not set
    | MEM_PAGE_NO_WE => (true, s)   -- FIXME in source: registers not set
  if fs.1 then
    let b0 := if bits ≥ 16 then 0x7C00
              else if address &&& 1 = 1 then 0x7D00 else 0x7E00
    (true, { fs.2 with bsr0 := b0 ||| (address >>> 16),
                       bsr1 := address &&& 0xFFFF,
                       bus_error := true })
  else (false, fs.2)

/-- The `ACCESS_CHECK_WR(address, bits)` macro. -/
def accessCheckWR (s : MachineState) (address bits : ℕ) : Bool × MachineState :=
  let fs : Bool × MachineState :=
    match checkMemoryAccess s.sr s.map address true with
    | MEM_ALLOWED => (false, s)
    | MEM_PAGEFAULT =>
        (true, { s with genstat := 0x8BFF ||| (if s.pie then 0x0400 else 0) })
    | MEM_UIE =>
        (true, { s with genstat := 0x9AFF ||| (if s.pie then 0x0400 else 0) })
    | MEM_KERNEL => (true, s)
    | MEM_PAGE_NO_WE => (true, s)
  if fs.1 then
    let b0 := if bits ≥ 16 then 0x7C00
              else if address &&& 1 = 1 then 0x7D00 else 0x7E00
    (true, { fs.2 with bsr0 := b0 ||| (address >>> 16),
                       bsr1 := address &&& 0xFFFF,
                       bus_error := true })
  else (false, fs.2)

/-- Embeds `IoWrite`.  Handlers that only log, or accept the write silently,
leave the state unchanged. -/
def IoWrite (s : MachineState) (address data : ℕ) (bits : ℕ) : MachineState :=
  if 0x400000 ≤ address ∧ address ≤ 0x7FFFFF then
    -- I/O register space, zone A
    if address &&& 0x0F0000 = 0x010000 then
      -- General Status Register
      if bits = 16 then { s with genstat := data &&& 0xFFFF }
      else if bits = 8 then
        -- `address & 0` is always zero, so the even-byte branch is taken
        if address &&& 0 ≠ 0 then { s with genstat := data &&& 0xFFFF }
        else { s with genstat := (data <<< 8) &&& 0xFFFF }
      else s
    else if address &&& 0x0F0000 = 0x060000 then
      -- DMA Count
      let s1 := { s with dma_count := data &&& 0x3FFF,
                         idmarw := data &&& 0x4000 = 0x4000,
                         dmaen := data &&& 0x8000 = 0x8000 }
      -- the "dummy DMA transfer"
      let s2 :=
        if ¬ s1.idmarw then
          let am := mapAddr s1.map address true
          { s1 with map := am.2,
                    base_ram := WR32 s1.base_ram am.1 (s1.base_ram_size - 1) 0xDEAD }
        else s1
      { s2 with dma_count := s2.dma_count + 1 }
    else if address &&& 0x0F0000 = 0x0A0000 then
      -- Miscellaneous Control Register
      { s with dma_reading := data &&& 0x4000 ≠ 0,
               leds := ((data &&& 0xF00) ^^^ 0xF00) >>> 8 }
    else if address &&& 0x0F0000 = 0x0C0000 then
      -- Clear Status Register
      { s with genstat := 0xFFFF, bsr0 := 0xFFFF, bsr1 := 0xFFFF }
    else if address &&& 0x0F0000 = 0x0D0000 then
      -- DMA Address Register (address-as-data)
      if address &&& 0x004000 ≠ 0 then
        { s with dma_address := (s.dma_address &&& 0x1FE) ||| ((address &&& 0x3FFE) <<< 8) }
      else
        { s with dma_address := (s.dma_address &&& 0x3FFE00) ||| (address &&& 0x1FE) }
    else if address &&& 0x0F0000 = 0x0E0000 then
      -- Disk Control Register: BIT 7 low pulses the FDC reset
      if data &&& 0x80 = 0 then { s with fdc_ctx := wd2797_reset s.fdc_ctx } else s
    else s
  else if 0xC00000 ≤ address ∧ address ≤ 0xFFFFFF then
    -- I/O register space, zone B
    if address &&& 0xF00000 = 0xE00000 ∨ address &&& 0xF00000 = 0xF00000 then
      if address &&& 0x070000 = 0x010000 then
        -- WD2797 floppy disc controller
        { s with fdc_ctx := wd2797_write_reg s.fdc_ctx ((address >>> 1) &&& 3) data }
      else if address &&& 0x070000 = 0x040000 then
        -- General Control Register
        if address &&& 0x077000 = 0x041000 then
          { s with pie := data &&& 0x8000 = 0x8000 }
        else if address &&& 0x077000 = 0x043000 then
          { s with romlmap := data &&& 0x8000 = 0x8000 }
        else s
      else s
    else s
  else s

/-- Embeds `IoRead`: it returns the data value and the state (the FDC register read
can change the controller state).  Unhandled reads return `0xFFFFFFFF`. -/
def IoRead (s : MachineState) (address : ℕ) (bits : ℕ) : ℕ × MachineState :=
  if 0x400000 ≤ address ∧ address ≤ 0x7FFFFF then
    if address &&& 0x0F0000 = 0x010000 then
      ((s.genstat <<< 16) + s.genstat, s)
    else if address &&& 0x0F0000 = 0x030000 then
      ((s.bsr0 <<< 16) + s.bsr0, s)
    else if address &&& 0x0F0000 = 0x040000 then
      ((s.bsr1 <<< 16) + s.bsr1, s)
    else if address &&& 0x0F0000 = 0x060000 then
      -- DMA Count: bit 14 unused (left set), U/OERR- inactive
      ((s.dma_count &&& 0x3FFF) ||| 0xC000, s)
    else if address &&& 0x0F0000 = 0x070000 then
      -- Line Printer Status Register
      (0x00120012 ||| (if s.fdc_ctx.irql then 0x00080008 else 0), s)
    else (0xFFFFFFFF, s)
  else if 0xC00000 ≤ address ∧ address ≤ 0xFFFFFF then
    if address &&& 0xF00000 = 0xE00000 ∨ address &&& 0xF00000 = 0xF00000 then
      if address &&& 0x070000 = 0x010000 then
        -- WD2797 floppy disc controller
        let r := wd2797_read_reg s.fdc_ctx ((address >>> 1) &&& 3)
        (r.1, { s with fdc_ctx := r.2 })
      else (0xFFFFFFFF, s)
    else (0xFFFFFFFF, s)
  else (0xFFFFFFFF, s)

/-- Embeds `m68k_read_memory_8`. -/
def m68k_read_memory_8 (s : MachineState) (address : ℕ) : ℕ × MachineState :=
  -- If ROMLMAP is clear, force system to access ROM
  let address := if ¬ s.romlmap then address ||| 0x800000 else address
  let chk := accessCheckRD s address 8
  if chk.1 then (0xFFFFFFFF, chk.2)
  else
    let s := chk.2
    if 0x800000 ≤ address ∧ address ≤ 0xBFFFFF then
      (RD8 s.rom address (ROM_SIZE - 1), s)
    else if address ≤ 0x3FFFFF then
      let am := mapAddr s.map address false
      let s := { s with map := am.2 }
      if am.1 ≤ 0x1FFFFF then
        (RD8 s.base_ram am.1 (s.base_ram_size - 1), s)
      else if am.1 ≤ s.exp_ram_size + 0x200000 - 1 then
        (RD8 s.exp_ram (am.1 - 0x200000) (s.exp_ram_size - 1), s)
      else (0xFF, s)
    else if 0x400000 ≤ address ∧ address ≤ 0x7FFFFF then
      if address &&& 0x0F0000 = 0x000000 then
        (RD8 s.map address 0x7FF, s)
      else if address &&& 0x0F0000 = 0x020000 then
        (RD8 s.vram address 0x7FFF, s)
      else IoRead s address 8
    else IoRead s address 8

/-- Embeds `m68k_read_memory_16`.  Here `data` is a `uint16_t` in the source, so the
I/O-read fall-through paths truncate to 16 bits. -/
def m68k_read_memory_16 (s : MachineState) (address : ℕ) : ℕ × MachineState :=
  let address := if ¬ s.romlmap then address ||| 0x800000 else address
  let chk := accessCheckRD s address 16
  if chk.1 then (0xFFFFFFFF, chk.2)
  else
    let s := chk.2
    if 0x800000 ≤ address ∧ address ≤ 0xBFFFFF then
      (RD16 s.rom address (ROM_SIZE - 1), s)
    else if address ≤ 0x3FFFFF then
      let am := mapAddr s.map address false
      let s := { s with map := am.2 }
      if am.1 ≤ 0x1FFFFF then
        (RD16 s.base_ram am.1 (s.base_ram_size - 1), s)
      else if am.1 ≤ s.exp_ram_size + 0x200000 - 1 then
        (RD16 s.exp_ram (am.1 - 0x200000) (s.exp_ram_size - 1), s)
      else (0xFFFF, s)
    else if 0x400000 ≤ address ∧ address ≤ 0x7FFFFF then
      if address &&& 0x0F0000 = 0x000000 then
        (RD16 s.map address 0x7FF, s)
      else if address &&& 0x0F0000 = 0x020000 then
        (RD16 s.vram address 0x7FFF, s)
      else
        let r := IoRead s address 16
        (r.1 &&& 0xFFFF, r.2)
    else
      let r := IoRead s address 16
      (r.1 &&& 0xFFFF, r.2)

/-- Embeds `m68k_read_memory_32`. -/
def m68k_read_memory_32 (s : MachineState) (address : ℕ) : ℕ × MachineState :=
  let address := if ¬ s.romlmap then address ||| 0x800000 else address
  let chk := accessCheckRD s address 32
  if chk.1 then (0xFFFFFFFF, chk.2)
  else
    let s := chk.2
    if 0x800000 ≤ address ∧ address ≤ 0xBFFFFF then
      (RD32 s.rom address (ROM_SIZE - 1), s)
    else if address ≤ 0x3FFFFF then
      let am := mapAddr s.map address false
      let s := { s with map := am.2 }
      if am.1 ≤ 0x1FFFFF then
        (RD32 s.base_ram am.1 (s.base_ram_size - 1), s)
      else if am.1 ≤ s.exp_ram_size + 0x200000 - 1 then
        (RD32 s.exp_ram (am.1 - 0x200000) (s.exp_ram_size - 1), s)
      else (0xFFFFFFFF, s)
    else if 0x400000 ≤ address ∧ address ≤ 0x7FFFFF then
      if address &&& 0x0F0000 = 0x000000 then
        (RD32 s.map address 0x7FF, s)
      else if address &&& 0x0F0000 = 0x020000 then
        (RD32 s.vram address 0x7FFF, s)
      else IoRead s address 32
    else IoRead s address 32

/-- Embeds `m68k_write_memory_8`. -/
def m68k_write_memory_8 (s : MachineState) (address value : ℕ) : MachineState :=
  let address := if ¬ s.romlmap then address ||| 0x800000 else address
  let chk := accessCheckWR s address 8
  if chk.1 then chk.2
  else
    let s := chk.2
    if 0x800000 ≤ address ∧ address ≤ 0xBFFFFF then s  -- ROM is read-only
    else if address ≤ 0x3FFFFF then
      let am := mapAddr s.map address true
      let s := { s with map := am.2 }
      if am.1 ≤ 0x1FFFFF then
        { s with base_ram := WR8 s.base_ram am.1 (s.base_ram_size - 1) value }
      else
        -- note: no upper-bound check on the write path
        { s with exp_ram := WR8 s.exp_ram (am.1 - 0x200000) (s.exp_ram_size - 1) value }
    else if 0x400000 ≤ address ∧ address ≤ 0x7FFFFF then
      if address &&& 0x0F0000 = 0x000000 then
        { s with map := WR8 s.map address 0x7FF value }
      else if address &&& 0x0F0000 = 0x020000 then
        { s with vram := WR8 s.vram address 0x7FFF value }
      else IoWrite s address value 8
    else IoWrite s address value 8

/-- Embeds `m68k_write_memory_16`. -/
def m68k_write_memory_16 (s : MachineState) (address value : ℕ) : MachineState :=
  let address := if ¬ s.romlmap then address ||| 0x800000 else address
  let chk := accessCheckWR s address 16
  if chk.1 then chk.2
  else
    let s := chk.2
    if 0x800000 ≤ address ∧ address ≤ 0xBFFFFF then s
    else if address ≤ 0x3FFFFF then
      let am := mapAddr s.map address true
      let s := { s with map := am.2 }
      if am.1 ≤ 0x1FFFFF then
        { s with base_ram := WR16 s.base_ram am.1 (s.base_ram_size - 1) value }
      else
        { s with exp_ram := WR16 s.exp_ram (am.1 - 0x200000) (s.exp_ram_size - 1) value }
    else if 0x400000 ≤ address ∧ address ≤ 0x7FFFFF then
      if address &&& 0x0F0000 = 0x000000 then
        { s with map := WR16 s.map address 0x7FF value }
      else if address &&& 0x0F0000 = 0x020000 then
        { s with vram := WR16 s.vram address 0x7FFF value }
      else IoWrite s address value 16
    else IoWrite s address value 16

/-- Embeds `m68k_write_memory_32`. -/
def m68k_write_memory_32 (s : MachineState) (address value : ℕ) : MachineState :=
  let address := if ¬ s.romlmap then address ||| 0x800000 else address
  let chk := accessCheckWR s address 32
  if chk.1 then chk.2
  else
    let s := chk.2
    if 0x800000 ≤ address ∧ address ≤ 0xBFFFFF then s
    else if address ≤ 0x3FFFFF then
      let am := mapAddr s.map address true
      let s := { s with map := am.2 }
      if am.1 ≤ 0x1FFFFF then
        { s with base_ram := WR32 s.base_ram am.1 (s.base_ram_size - 1) value }
      else
        { s with exp_ram := WR32 s.exp_ram (am.1 - 0x200000) (s.exp_ram_size - 1) value }
    else if 0x400000 ≤ address ∧ address ≤ 0x7FFFFF then
      if address &&& 0x0F0000 = 0x000000 then
        { s with map := WR32 s.map address 0x7FF value }
      else if address &&& 0x0F0000 = 0x020000 then
        { s with vram := WR32 s.vram address 0x7FFF value }
      else IoWrite s address value 32
    else IoWrite s address value 32

/-! ## Spec-side definitions and helper lemmas -/

/-- The Access Checker as claim C1 words it: a total function of
`(addr, writing)` (and the ambient status register and map RAM). -/
def accessVerdictSpec (sr : ℕ) (map : ℕ → ℕ) (addr : ℕ) (writing : Bool) :
    MEM_STATUS :=
  if sr &&& 0x2000 ≠ 0 then MEM_ALLOWED
  else if addr ≥ 0x400000 then MEM_UIE
  else
    let pagebits := (MAPRAM map ((addr >>> 12) &&& 0x3FF) >>> 13) &&& 0x07
    if pagebits &&& 0x03 = 0 then MEM_PAGEFAULT
    else if (addr >>> 19) &&& 0x0F = 0 then MEM_KERNEL
    else if writing ∧ pagebits &&& 0x04 = 0 then MEM_PAGE_NO_WE
    else MEM_ALLOWED

/-- The Address Mapper as claim C3 words it: physical address
`(phys_page << 12) | (addr & 0xFFF)`, with the entry's high byte ORed with
0x60 (write) or 0x40 (read) when the presence bits are nonzero. -/
def mapAddrSpec (map : ℕ → ℕ) (addr : ℕ) (writing : Bool) : ℕ × (ℕ → ℕ) :=
  if addr < 0x400000 then
    let page := (addr >>> 12) &&& 0x3FF
    let entry := MAPRAM map page
    let map' :=
      if (entry >>> 13) &&& 0x03 ≠ 0 then
        upd map (page * 2)
          ((map (page * 2) % 256) ||| (if writing then 0x60 else 0x40))
      else map
    (((entry &&& 0x3FF) <<< 12) ||| (addr &&& 0xFFF), map')
  else (addr, map)

lemma shiftLeft_add_eq_lor {b : ℕ} (a k : ℕ) (h : b < 2 ^ k) :
    (a <<< k) + b = (a <<< k) ||| b := by
  rw [Nat.shiftLeft_eq, Nat.mul_comm]
  exact Nat.mul_add_lt_is_or h a

lemma and_fff_lt (addr : ℕ) : addr &&& 0xFFF < 2 ^ 12 := by
  have h : (0xFFF : ℕ) = 2 ^ 12 - 1 := by norm_num
  rw [h, Nat.and_pow_two_sub_one_eq_mod]
  exact Nat.mod_lt _ (by norm_num)

/-! ## Claim theorems -/

/-- C1.  The Access Checker (`checkMemoryAccess`) is exactly the total
function of `(addr, writing)` described by the claim: supervisor bit set →
ALLOWED; `addr ≥ 0x400000` → UIE; presence bits 00 → PAGEFAULT; A19..A22
all low → KERNEL; a write to a page without write-enable → PAGE_NO_WE;
otherwise ALLOWED.  In particular, in supervisor mode every access is
ALLOWED. -/
theorem checkMemoryAccess_matches_claim (sr : ℕ) (map : ℕ → ℕ) (addr : ℕ)
    (writing : Bool) :
    checkMemoryAccess sr map addr writing = accessVerdictSpec sr map addr writing
    ∧ (sr &&& 0x2000 ≠ 0 → checkMemoryAccess sr map addr writing = MEM_ALLOWED) := by
  refine ⟨rfl, fun h => ?_⟩
  unfold checkMemoryAccess
  rw [if_pos h]

/-- Witness for C1 at a concrete supervisor-mode input. -/
theorem checkMemoryAccess_matches_claim_witness :
    ((0x2700 : ℕ) &&& 0x2000 ≠ 0)
    ∧ checkMemoryAccess 0x2700 (fun _ => 0) 0x123456 true = MEM_ALLOWED :=
  ⟨by decide,
   (checkMemoryAccess_matches_claim 0x2700 (fun _ => 0) 0x123456 true).2 (by decide)⟩

/-- C3.  The Address Mapper (`mapAddr`) returns
`(phys_page << 12) | (addr & 0xFFF)` for `addr < 0x400000` (with `phys_page`
the low 10 bits of the big-endian map entry of page `(addr >> 12) & 0x3FF`),
ORing the entry's high byte in map RAM with 0x60 on a write and 0x40 on a
read when the presence bits `(entry >> 13) & 0x03` are nonzero; for
`addr ≥ 0x400000` it returns `addr` and changes no map RAM byte. -/
theorem mapAddr_matches_claim (map : ℕ → ℕ) (addr : ℕ) (writing : Bool) :
    mapAddr map addr writing = mapAddrSpec map addr writing := by
  unfold mapAddr mapAddrSpec
  by_cases h : addr < 0x400000
  · rw [if_pos h, if_pos h]
    refine Prod.ext ?_ ?_
    · exact shiftLeft_add_eq_lor _ 12 (and_fff_lt addr)
    · cases writing <;> simp
  · rw [if_neg h, if_neg h]

/-- A 40-track test image: 512 bytes/sector, 10 sectors/track, 1 head,
`filesize = 512 * 10 * 40`. -/
def img40 : DiskImage := { bytes := fun _ => 0, size := 204800 }

/-- C5.  The claim says a SEEK to a track number `≥ tracks` leaves the
seek-error bit 0x10 set in the status register.  In the code the SEEK case
does set `status = 0x10`, but it then reaches the shared Type-1 epilogue,
which overwrites the status with `0x20 | (track == 0 ? 0x04 : 0)`.  At the
claim's own input (40-track image, `data_reg = 50`, command 0x1F) the final
status is 0x24 with bit 0x10 clear; track, `track_reg` and IRQ behave as
claimed. -/
theorem seek_error_status_clobbered :
    (fdcRun fdc0 [.load img40 512 10 1 true, .wrReg 3 50, .wrReg 0 0x1F]).status = 0x24
    ∧ (fdcRun fdc0 [.load img40 512 10 1 true, .wrReg 3 50, .wrReg 0 0x1F]).status &&& 0x10 = 0
    ∧ (fdcRun fdc0 [.load img40 512 10 1 true, .wrReg 3 50, .wrReg 0 0x1F]).track = 0
    ∧ (fdcRun fdc0 [.load img40 512 10 1 true, .wrReg 3 50, .wrReg 0 0x1F]).track_reg = 0
    ∧ (fdcRun fdc0 [.load img40 512 10 1 true, .wrReg 3 50, .wrReg 0 0x1F]).irq = true := by
  decide

/-- C6.  The claim says FORCE INTERRUPT sets
`status = 0x20 | (0x40 if not writeable) | (0x04 if track == 0)` and raises
IRQ exactly when bit 3 of the command byte is set.  In the code the
`track == 0` case is a plain assignment `status = 0x04` (not an OR), and the
IRQ test is `cmd & 8` where `cmd = val & 0xF0` has its low nibble masked
off, so it is always false.  At the claim's own input (non-writeable image,
track 0, command byte 0xD8) the code leaves `status = 0x04` (not 0x64) and
never raises IRQ. -/
theorem force_interrupt_status_and_irq :
    (fdcRun fdc0 [.load img40 512 10 1 false, .wrReg 0 0xD8]).status = 0x04
    ∧ (fdcRun fdc0 [.load img40 512 10 1 false, .wrReg 0 0xD8]).irq = false
    ∧ (fdcRun fdc0 [.load img40 512 10 1 false, .wrReg 0 0xD8]).data_pos = 0
    ∧ (fdcRun fdc0 [.load img40 512 10 1 false, .wrReg 0 0xD8]).data_len = 0 := by
  decide

/-- C8.  Reading the FDC STATUS register (register index 0) clears the IRQ
flag before returning, from any controller state whatsoever. -/
theorem read_status_clears_irq (s : WD2797) :
    ((wd2797_read_reg s 0).2).irq = false := rfl

/-- C10.  Writing a byte `v` to the FDC TRACK register (register index 1)
sets both the head position `track` and the track register `track_reg` to
`v`, and changes no other field of the controller state. -/
theorem write_track_reg (s : WD2797) (v : ℕ) (h : v < 256) :
    wd2797_write_reg s 1 v = { s with track := (v : ℤ), track_reg := (v : ℤ) } := by
  unfold wd2797_write_reg
  norm_num [Nat.mod_eq_of_lt h]

/-- Witness for C10 at a concrete input. -/
theorem write_track_reg_witness :
    (5 : ℕ) < 256
    ∧ wd2797_write_reg fdc0 1 5 = { fdc0 with track := 5, track_reg := 5 } :=
  ⟨by decide, write_track_reg fdc0 5 (by decide)⟩

/-! ### The buffer-index invariant (C7) -/

set_option maxHeartbeats 1000000 in
lemma wd2797_command_inv (s : WD2797) (v : ℕ) (h : s.data_pos ≤ s.data_len) :
    (wd2797_command s v).data_pos ≤ (wd2797_command s v).data_len := by
  unfold wd2797_command
  dsimp only
  cases himg : s.disc_image with
  | none => simpa using h
  | some img =>
    dsimp only
    split_ifs <;> dsimp only <;> omega

lemma wd2797_write_data_inv (s : WD2797) (v : ℕ) (h : s.data_pos ≤ s.data_len) :
    (wd2797_write_data s v).data_pos ≤ (wd2797_write_data s v).data_len := by
  unfold wd2797_write_data
  dsimp only
  split_ifs <;> simp_all <;> omega

lemma wd2797_read_reg_inv (s : WD2797) (a : ℕ) (h : s.data_pos ≤ s.data_len) :
    ((wd2797_read_reg s a).2).data_pos ≤ ((wd2797_read_reg s a).2).data_len := by
  unfold wd2797_read_reg
  split_ifs <;> simp_all <;> omega

lemma fdcStep_inv (s : WD2797) (op : FDCOp) (h : s.data_pos ≤ s.data_len) :
    (fdcStep s op).data_pos ≤ (fdcStep s op).data_len := by
  cases op with
  | rdReg a => exact wd2797_read_reg_inv s a h
  | wrReg a v =>
    unfold fdcStep wd2797_write_reg
    dsimp only
    split_ifs
    · exact wd2797_command_inv _ _ h
    · simpa using h
    · simpa using h
    · exact wd2797_write_data_inv _ _ h
    · exact h
  | reset => simp [fdcStep, wd2797_reset]
  | dmaMiss => simp [fdcStep, wd2797_dma_miss]
  | load img a b c w =>
    unfold fdcStep wd2797_load
    dsimp only
    split_ifs <;> simpa using h
  | unload => simpa [fdcStep, wd2797_unload] using h

lemma fdcRun_inv (ops : List FDCOp) :
    ∀ s : WD2797, s.data_pos ≤ s.data_len →
      (fdcRun s ops).data_pos ≤ (fdcRun s ops).data_len := by
  induction ops with
  | nil => intro s h; exact h
  | cons op rest ih => intro s h; exact ih _ (fdcStep_inv s op h)

/-- C7 (amended).  In every FDC state reachable from an initialised
controller by any sequence of loads, register reads/writes, resets and
DMA-miss signals, `data_pos ≤ data_len` holds.  (The claim's further bound
`data_len ≤ capacity(data)` is refuted by the counterexample below.) -/
theorem fdc_data_pos_le_data_len (s0 : WD2797) (ops : List FDCOp) :
    (fdcRun (wd2797_init s0) ops).data_pos ≤ (fdcRun (wd2797_init s0) ops).data_len :=
  fdcRun_inv ops _ (by simp [wd2797_init])

/-- C7 counterexample.  Load a writeable image with the standard 3B1
geometry (512 bytes/sector, 10 sectors/track): the track buffer is
allocated with capacity `512 * 10 = 5120`.  A FORMAT TRACK command (0xF0)
then sets `data_len = 7170 > 5120`, violating the claimed invariant
`data_len ≤ capacity(data)` in a reachable state. -/
theorem format_track_exceeds_capacity :
    (fdcRun (wd2797_init fdc0) [.load img40 512 10 1 true, .wrReg 0 0xF0]).data_len = 7170
    ∧ (fdcRun (wd2797_init fdc0) [.load img40 512 10 1 true, .wrReg 0 0xF0]).data_cap = 5120
    ∧ ¬ ((fdcRun (wd2797_init fdc0) [.load img40 512 10 1 true, .wrReg 0 0xF0]).data_len
          ≤ (fdcRun (wd2797_init fdc0) [.load img40 512 10 1 true, .wrReg 0 0xF0]).data_cap) := by
  decide

/-! ### Memory-side helper lemmas -/

lemma checkMemoryAccess_sup {sr : ℕ} (map : ℕ → ℕ) (addr : ℕ) (w : Bool)
    (h : sr &&& 0x2000 ≠ 0) : checkMemoryAccess sr map addr w = MEM_ALLOWED := by
  unfold checkMemoryAccess
  rw [if_pos h]

lemma accessCheckWR_sup (s : MachineState) (addr bits : ℕ)
    (h : s.sr &&& 0x2000 ≠ 0) : accessCheckWR s addr bits = (false, s) := by
  unfold accessCheckWR
  rw [checkMemoryAccess_sup s.map addr true h]
  rfl

lemma accessCheckRD_sup (s : MachineState) (addr bits : ℕ)
    (h : s.sr &&& 0x2000 ≠ 0) : accessCheckRD s addr bits = (false, s) := by
  unfold accessCheckRD
  rw [checkMemoryAccess_sup s.map addr false h]
  rfl

lemma checkMemoryAccess_pf (s : MachineState) (A : ℕ) (w : Bool)
    (hsr : s.sr &&& 0x2000 = 0) (hA : A < 0x400000)
    (hpf : (MAPRAM s.map ((A >>> 12) &&& 0x3FF) >>> 13) &&& 0x03 = 0) :
    checkMemoryAccess s.sr s.map A w = MEM_PAGEFAULT := by
  unfold checkMemoryAccess
  rw [if_neg (by simp [hsr]), if_neg (by omega)]
  have h7 : ((MAPRAM s.map ((A >>> 12) &&& 0x3FF) >>> 13) &&& 0x07) &&& 0x03
      = (MAPRAM s.map ((A >>> 12) &&& 0x3FF) >>> 13) &&& 0x03 := by
    rw [Nat.land_assoc, show (7 : ℕ) &&& 3 = 3 from by decide]
  rw [if_pos (by rw [h7]; exact hpf)]

lemma shr16_and_ff {A : ℕ} (hA : A < 0x400000) : (A >>> 16) &&& 0xFF = A >>> 16 := by
  have h1 : A >>> 16 < 2 ^ 8 := by
    rw [Nat.shiftRight_eq_div_pow]
    omega
  have h2 : (0xFF : ℕ) = 2 ^ 8 - 1 := by norm_num
  rw [h2, Nat.and_pow_two_sub_one_eq_mod, Nat.mod_eq_of_lt h1]

lemma mapAddr_fst (m : ℕ → ℕ) (a : ℕ) (w w' : Bool) :
    (mapAddr m a w).1 = (mapAddr m a w').1 := by
  unfold mapAddr
  split_ifs <;> rfl

/-- C2.  A user-mode 8-bit read of an address `A < 0x400000` whose map
entry has presence bits 00 (with `romlmap` set so the address is not
redirected to ROM) pulses a bus error, returns 0xFFFFFFFF, sets `genstat`
to 0xCBFF (0xCFFF when PIE is set), sets `bsr0` to
`(0x7D00 if A odd else 0x7E00) | ((A >> 16) & 0xFF)` and `bsr1` to
`A & 0xFFFF`. -/
theorem user_pagefault_read8 (s : MachineState) (A : ℕ)
    (hsr : s.sr &&& 0x2000 = 0) (hrom : s.romlmap = true)
    (hA : A < 0x400000)
    (hpf : (MAPRAM s.map ((A >>> 12) &&& 0x3FF) >>> 13) &&& 0x03 = 0) :
    m68k_read_memory_8 s A =
      (0xFFFFFFFF,
       { s with genstat := if s.pie then 0xCFFF else 0xCBFF,
                bsr0 := (if A % 2 = 1 then 0x7D00 else 0x7E00) ||| ((A >>> 16) &&& 0xFF),
                bsr1 := A &&& 0xFFFF,
                bus_error := true }) := by
  have hchk := checkMemoryAccess_pf s A false hsr hA hpf
  have hff := shr16_and_ff hA
  have hodd : A &&& 1 = A % 2 := Nat.and_one_is_mod A
  have hgen : (0xCBFF : ℕ) ||| (if s.pie then 0x0400 else 0)
      = if s.pie then 0xCFFF else 0xCBFF := by
    cases hp : s.pie <;> simp [hp]
  have hacc : accessCheckRD s A 8 =
      (true, { s with genstat := if s.pie then 0xCFFF else 0xCBFF,
                      bsr0 := (if A % 2 = 1 then 0x7D00 else 0x7E00)
                                ||| ((A >>> 16) &&& 0xFF),
                      bsr1 := A &&& 0xFFFF,
                      bus_error := true }) := by
    unfold accessCheckRD
    rw [hchk, hff]
    simp only []
    rw [if_neg (by norm_num : ¬ (8 : ℕ) ≥ 16), hodd, hgen]
    exact if_pos trivial
  unfold m68k_read_memory_8
  rw [hrom]
  simp only [not_true, ite_false, hacc]
  rw [if_pos trivial, hrom]

/-- Witness for C2: the claim's own example, `read8(0x100000)` in user mode
with map entry 0x100 not present, gives `genstat = 0xCBFF`, `bsr0 = 0x7E10`,
`bsr1 = 0`. -/
theorem user_pagefault_read8_witness :
    let s : MachineState :=
      { sr := 0, rom := fun _ => 0, base_ram := fun _ => 0,
        base_ram_size := 0x200000, exp_ram := fun _ => 0,
        exp_ram_size := 0x200000, map := fun _ => 0, vram := fun _ => 0,
        genstat := 0xFFFF, bsr0 := 0xFFFF, bsr1 := 0xFFFF, pie := false,
        romlmap := true, dma_count := 0, idmarw := false, dmaen := false,
        dma_reading := false, dma_address := 0, leds := 0, fdc_ctx := fdc0,
        bus_error := false }
    s.sr &&& 0x2000 = 0 ∧ s.romlmap = true ∧ 0x100000 < 0x400000
    ∧ (MAPRAM s.map ((0x100000 >>> 12) &&& 0x3FF) >>> 13) &&& 0x03 = 0
    ∧ m68k_read_memory_8 s 0x100000 =
      (0xFFFFFFFF,
       { s with genstat := if s.pie then 0xCFFF else 0xCBFF,
                bsr0 := (if 0x100000 % 2 = 1 then 0x7D00 else 0x7E00)
                          ||| ((0x100000 >>> 16) &&& 0xFF),
                bsr1 := 0x100000 &&& 0xFFFF,
                bus_error := true }) := by
  refine ⟨by decide, rfl, by decide, by decide, ?_⟩
  exact user_pagefault_read8 _ 0x100000 (by decide) rfl (by decide) (by decide)

/-- A concrete machine for the C4 scenario: supervisor mode, `romlmap` set,
1 MiB of expansion RAM, and the map entry of virtual page 0x300 set to
0x0300 (physical page 0x300, presence bits 00), so virtual 0x300000 maps to
physical 0x300000 — which is `0x100000` past the start of expansion RAM,
i.e. at `0x200000 + exp_ram_size`, beyond its end. -/
def cm4 : MachineState :=
  { sr := 0x2000, rom := fun _ => 0, base_ram := fun _ => 0,
    base_ram_size := 0x200000, exp_ram := fun _ => 0,
    exp_ram_size := 0x100000,
    map := fun j => if j = 0x600 then 0x03 else 0,
    vram := fun _ => 0,
    genstat := 0xFFFF, bsr0 := 0xFFFF, bsr1 := 0xFFFF, pie := false,
    romlmap := true, dma_count := 0, idmarw := false, dmaen := false,
    dma_reading := false, dma_address := 0, leds := 0, fdc_ctx := fdc0,
    bus_error := false }

/-- C4 counterexample.  At `cm4`, the supervisor-mode 16-bit write of
0x1234 to virtual 0x300000 satisfies the claim's condition (the mapped
physical address 0x300000 is `≥ 0x200000 + exp_ram_size`), yet the write is
NOT dropped: the write path has no upper-bound check, so the store wraps
through the `exp_ram_size - 1` mask and changes `exp_ram[0]` from 0 to
0x12. -/
theorem write_beyond_exp_ram_not_dropped :
    (mapAddr cm4.map 0x300000 true).1 = 0x300000
    ∧ 0x200000 + cm4.exp_ram_size ≤ (mapAddr cm4.map 0x300000 true).1
    ∧ cm4.exp_ram 0 = 0
    ∧ (m68k_write_memory_16 cm4 0x300000 0x1234).exp_ram 0 = 0x12 := by
  decide

/-- C4 (amended).  For a supervisor-mode access (width 8, 16 or 32,
`romlmap` set) to an address below 0x400000 whose mapped physical address
is at or beyond the end of expansion RAM: the read returns all-ones, but
the write is NOT silently dropped — it stores the value into `exp_ram` at
offset `mapped - 0x200000`, wrapped through the `exp_ram_size - 1` size
mask, and updates the map RAM status bits as on any mapped write;
`base_ram`, `vram` and everything else are unchanged. -/
theorem write_beyond_exp_ram_wraps (s : MachineState) (addr v : ℕ)
    (hsr : s.sr &&& 0x2000 ≠ 0) (hrom : s.romlmap = true)
    (haddr : addr ≤ 0x3FFFFF)
    (hbeyond : 0x200000 + s.exp_ram_size ≤ (mapAddr s.map addr true).1) :
    (m68k_write_memory_8 s addr v =
      { s with map := (mapAddr s.map addr true).2,
               exp_ram := WR8 s.exp_ram ((mapAddr s.map addr true).1 - 0x200000)
                            (s.exp_ram_size - 1) v })
    ∧ (m68k_write_memory_16 s addr v =
      { s with map := (mapAddr s.map addr true).2,
               exp_ram := WR16 s.exp_ram ((mapAddr s.map addr true).1 - 0x200000)
                            (s.exp_ram_size - 1) v })
    ∧ (m68k_write_memory_32 s addr v =
      { s with map := (mapAddr s.map addr true).2,
               exp_ram := WR32 s.exp_ram ((mapAddr s.map addr true).1 - 0x200000)
                            (s.exp_ram_size - 1) v })
    ∧ (m68k_read_memory_8 s addr).1 = 0xFF
    ∧ (m68k_read_memory_16 s addr).1 = 0xFFFF
    ∧ (m68k_read_memory_32 s addr).1 = 0xFFFFFFFF := by
  have hmf : (mapAddr s.map addr false).1 = (mapAddr s.map addr true).1 :=
    mapAddr_fst s.map addr false true
  have hnotrom : ¬ (0x800000 ≤ addr ∧ addr ≤ 0xBFFFFF) := by omega
  have hnotbase : ¬ (mapAddr s.map addr true).1 ≤ 0x1FFFFF := by omega
  have hnotexp : ¬ (mapAddr s.map addr true).1 ≤ s.exp_ram_size + 0x200000 - 1 := by
    omega
  refine ⟨?_, ?_, ?_, ?_, ?_, ?_⟩
  · unfold m68k_write_memory_8
    rw [hrom]
    simp only [not_true, ite_false, accessCheckWR_sup s addr 8 hsr, Bool.false_eq_true]
    rw [if_neg hnotrom, if_pos haddr, if_neg hnotbase, hrom]
  · unfold m68k_write_memory_16
    rw [hrom]
    simp only [not_true, ite_false, accessCheckWR_sup s addr 16 hsr, Bool.false_eq_true]
    rw [if_neg hnotrom, if_pos haddr, if_neg hnotbase, hrom]
  · unfold m68k_write_memory_32
    rw [hrom]
    simp only [not_true, ite_false, accessCheckWR_sup s addr 32 hsr, Bool.false_eq_true]
    rw [if_neg hnotrom, if_pos haddr, if_neg hnotbase, hrom]
  · unfold m68k_read_memory_8
    rw [hrom]
    simp only [not_true, ite_false, accessCheckRD_sup s addr 8 hsr, Bool.false_eq_true]
    rw [if_neg hnotrom, if_pos haddr,
        if_neg (by rw [hmf]; exact hnotbase), if_neg (by rw [hmf]; exact hnotexp)]
  · unfold m68k_read_memory_16
    rw [hrom]
    simp only [not_true, ite_false, accessCheckRD_sup s addr 16 hsr, Bool.false_eq_true]
    rw [if_neg hnotrom, if_pos haddr,
        if_neg (by rw [hmf]; exact hnotbase), if_neg (by rw [hmf]; exact hnotexp)]
  · unfold m68k_read_memory_32
    rw [hrom]
    simp only [not_true, ite_false, accessCheckRD_sup s addr 32 hsr, Bool.false_eq_true]
    rw [if_neg hnotrom, if_pos haddr,
        if_neg (by rw [hmf]; exact hnotbase), if_neg (by rw [hmf]; exact hnotexp)]

/-- Witness for C4's amended theorem at the concrete machine `cm4`. -/
theorem write_beyond_exp_ram_wraps_witness :
    (cm4.sr &&& 0x2000 ≠ 0 ∧ cm4.romlmap = true ∧ (0x300000 : ℕ) ≤ 0x3FFFFF
      ∧ 0x200000 + cm4.exp_ram_size ≤ (mapAddr cm4.map 0x300000 true).1)
    ∧ ((m68k_read_memory_16 cm4 0x300000).1 = 0xFFFF
      ∧ m68k_write_memory_16 cm4 0x300000 0x1234 =
        { cm4 with map := (mapAddr cm4.map 0x300000 true).2,
                   exp_ram := WR16 cm4.exp_ram
                      ((mapAddr cm4.map 0x300000 true).1 - 0x200000)
                      (cm4.exp_ram_size - 1) 0x1234 }) :=
  ⟨⟨by decide, rfl, by decide, by decide⟩,
   ⟨(write_beyond_exp_ram_wraps cm4 0x300000 0x1234 (by decide) rfl (by decide)
        (by decide)).2.2.2.2.1,
    (write_beyond_exp_ram_wraps cm4 0x300000 0x1234 (by decide) rfl (by decide)
        (by decide)).2.1⟩⟩

/-- C9.  Writing a 16-bit value `v` to the DMACOUNT register and then
reading DMACOUNT back yields `((v & 0x3FFF) + 1) & 0x3FFF | 0xC000`: the
low 14 bits land in `dma_count`, which is then incremented once; bits 14
and 15 go to `idmarw`/`dmaen` (possibly triggering the dummy DMA transfer
into `base_ram`, which leaves `dma_count` itself untouched). -/
theorem dmacount_write_then_read (s : MachineState) (a1 a2 v : ℕ)
    (h1 : 0x400000 ≤ a1 ∧ a1 ≤ 0x7FFFFF ∧ a1 &&& 0x0F0000 = 0x060000)
    (h2 : 0x400000 ≤ a2 ∧ a2 ≤ 0x7FFFFF ∧ a2 &&& 0x0F0000 = 0x060000) :
    (IoRead (IoWrite s a1 v 16) a2 16).1
      = (((v &&& 0x3FFF) + 1) &&& 0x3FFF) ||| 0xC000 := by
  obtain ⟨h1a, h1b, h1c⟩ := h1
  obtain ⟨h2a, h2b, h2c⟩ := h2
  have hw : (IoWrite s a1 v 16).dma_count = (v &&& 0x3FFF) + 1 := by
    unfold IoWrite
    rw [if_pos ⟨h1a, h1b⟩, if_neg (by rw [h1c]; decide), if_pos h1c]
    dsimp only
    split_ifs <;> rfl
  unfold IoRead
  rw [if_pos ⟨h2a, h2b⟩, if_neg (by rw [h2c]; decide), if_neg (by rw [h2c]; decide),
      if_neg (by rw [h2c]; decide), if_pos h2c]
  dsimp only
  rw [hw]

/-- Witness for C9 at the canonical DMACOUNT address 0x460000. -/
theorem dmacount_write_then_read_witness :
    ((0x400000 : ℕ) ≤ 0x460000 ∧ (0x460000 : ℕ) ≤ 0x7FFFFF
      ∧ (0x460000 : ℕ) &&& 0x0F0000 = 0x060000)
    ∧ (IoRead (IoWrite cm4 0x460000 0xBFFF 16) 0x460000 16).1
      = (((0xBFFF &&& 0x3FFF) + 1) &&& 0x3FFF) ||| 0xC000 :=
  ⟨⟨by decide, by decide, by decide⟩,
   dmacount_write_then_read cm4 0x460000 0x460000 0xBFFF
     ⟨by decide, by decide, by decide⟩ ⟨by decide, by decide, by decide⟩⟩

end Freebee
